import Mathlib

/-!
Verification of `src/09-mcp/client-remote-mcp.py`.

The script is a single async function `remote_mcp_example` that, inside one
parenthesized `async with` statement, constructs and enters an
`MCPStreamableHTTPTool` (fixed name and URL), then constructs a `ChatAgent`
(whose arguments construct an `AzureCliCredential` and an
`AzureOpenAIChatClient` bound to that credential) and enters it, runs one
query with the tool as the agent's tools, prints the result and returns.
Python evaluates the second context-manager expression only after the first
manager's aenter has completed, and exits the managers in reverse order;
an exception raised anywhere unwinds the already-entered managers and
propagates (nothing is caught inside the function).

We embed the function as a pure map from the behavior of its external
collaborators (each fallible step either succeeds or raises an error) to
the trace of observable events plus the outcome: `none` for a normal
return of Python `None`, `some e` for an error `e` propagating to the
caller.
-/

namespace RemoteMcp

/-- Error taxonomy of the spec: authentication, connection, backend failures. -/
inductive Err where
  | auth
  | conn
  | backend
deriving DecidableEq, Repr

/-- Identity of a tool connection object, as passed around by the script:
its constructor arguments. -/
structure ToolRef where
  name : String
  url : String
deriving DecidableEq, Repr

/-- Tool name literal from line 51 of the source. -/
def mcpToolName : String := "Microsoft Learn MCP"

/-- Tool URL literal from line 52 of the source. -/
def mcpToolUrl : String := "https://learn.microsoft.com/api/mcp"

/-- Agent name literal from line 60 of the source. -/
def agentName : String := "MSLearnAgent"

/-- Agent instruction literal from line 61 of the source. -/
def agentInstructions : String := "You help with Microsoft documentation questions."

/-- Query literal from line 68 of the source. -/
def queryText : String := "What is the Azure Container Apps service"

/-- The tool connection object the script binds to `mcp_server` (lines 50-53). -/
def mcp_server : ToolRef := ⟨mcpToolName, mcpToolUrl⟩

/-- Observable events of one process running the script. -/
inductive Event where
  | loadDotenv
  | toolConstruct (name url : String)
  | toolOpen
  | credentialAcquire (c : String)
  | chatClientConstruct (c : String)
  | agentConstruct (name instructions : String)
  | agentOpen
  | agentRun (query : String) (tools : ToolRef)
  | printOut (s : String)
  | agentClose
  | toolClose
deriving DecidableEq, Repr

/-- Behavior of the external collaborators of one call of
`remote_mcp_example`: whether each fallible step succeeds, the credential
issued on success, and the query result. -/
structure Behavior where
  toolOpenResult : Option Err
  credentialResult : Except Err String
  agentCtorResult : Option Err
  agentEnterResult : Option Err
  runResult : Except Err String

/-- Shallow embedding of `remote_mcp_example` (lines 26-73 of the source).
Sequencing follows the Python `async with` statement: the tool expression
is evaluated and entered first; only then is the `ChatAgent` argument list
evaluated (constructing the credential and the chat client), the agent
constructed and entered; the body runs the one query and prints; the
managers exit in reverse order, also when an exception unwinds them.
Returns the event trace and the outcome (`none` = normal return of `None`,
`some e` = error `e` propagating to the caller). -/
def remote_mcp_example (b : Behavior) : List Event × Option Err :=
  match b.toolOpenResult with
  | some e => ([Event.toolConstruct mcpToolName mcpToolUrl], some e)
  | none =>
    match b.credentialResult with
    | Except.error e =>
        ([Event.toolConstruct mcpToolName mcpToolUrl, Event.toolOpen,
          Event.toolClose], some e)
    | Except.ok c =>
      match b.agentCtorResult with
      | some e =>
          ([Event.toolConstruct mcpToolName mcpToolUrl, Event.toolOpen,
            Event.credentialAcquire c, Event.chatClientConstruct c,
            Event.toolClose], some e)
      | none =>
        match b.agentEnterResult with
        | some e =>
            ([Event.toolConstruct mcpToolName mcpToolUrl, Event.toolOpen,
              Event.credentialAcquire c, Event.chatClientConstruct c,
              Event.agentConstruct agentName agentInstructions,
              Event.toolClose], some e)
        | none =>
          match b.runResult with
          | Except.error e =>
              ([Event.toolConstruct mcpToolName mcpToolUrl, Event.toolOpen,
                Event.credentialAcquire c, Event.chatClientConstruct c,
                Event.agentConstruct agentName agentInstructions,
                Event.agentOpen, Event.agentRun queryText mcp_server,
                Event.agentClose, Event.toolClose], some e)
          | Except.ok s =>
              ([Event.toolConstruct mcpToolName mcpToolUrl, Event.toolOpen,
                Event.credentialAcquire c, Event.chatClientConstruct c,
                Event.agentConstruct agentName agentInstructions,
                Event.agentOpen, Event.agentRun queryText mcp_server,
                Event.printOut s,
                Event.agentClose, Event.toolClose], none)

/-- Module import runs `load_dotenv()` once (line 24), before any call of
`remote_mcp_example`; a process that then calls the function once per
element of `bs` produces this trace. -/
def processTrace (bs : List Behavior) : List Event :=
  Event.loadDotenv :: (bs.map (fun b => (remote_mcp_example b).1)).flatten

/-- Recognizes the tool-connection open event. -/
def isToolOpen : Event → Bool
  | Event.toolOpen => true
  | _ => false

/-- Recognizes the tool-connection close event. -/
def isToolClose : Event → Bool
  | Event.toolClose => true
  | _ => false

/-- Recognizes the agent close event. -/
def isAgentClose : Event → Bool
  | Event.agentClose => true
  | _ => false

/-- Recognizes agent construction events. -/
def isAgentConstruct : Event → Bool
  | Event.agentConstruct _ _ => true
  | _ => false

/-- Recognizes query (agent.run) events. -/
def isAgentRun : Event → Bool
  | Event.agentRun _ _ => true
  | _ => false

/-- Recognizes print events. -/
def isPrintOut : Event → Bool
  | Event.printOut _ => true
  | _ => false

/-- Recognizes credential acquisition events. -/
def isCredentialAcquire : Event → Bool
  | Event.credentialAcquire _ => true
  | _ => false

/-- Recognizes the configuration-loading event. -/
def isLoadDotenv : Event → Bool
  | Event.loadDotenv => true
  | _ => false

/-- The error the run surfaces: that of the first failing step in the
code's sequencing, unchanged, per the spec's propagation policy (no step
is caught, recovered or retried locally). -/
def surfacedError (b : Behavior) : Option Err :=
  match b.toolOpenResult with
  | some e => some e
  | none =>
    match b.credentialResult with
    | Except.error e => some e
    | Except.ok _ =>
      match b.agentCtorResult with
      | some e => some e
      | none =>
        match b.agentEnterResult with
        | some e => some e
        | none =>
          match b.runResult with
          | Except.error e => some e
          | Except.ok _ => none

/-- C1 as stated is false on the code: the claim requires that for every
failing credential provider no tool-connection open occurs, but the
`async with` statement enters the tool manager before the `ChatAgent`
argument list (which constructs the credential) is evaluated, so at a
behavior whose tool open succeeds and whose credential fails, the trace
does contain the tool-open event. -/
theorem c1_counterexample :
    ¬ (∀ (b : Behavior) (e : Err), b.credentialResult = Except.error e →
        (remote_mcp_example b).1.countP isToolOpen = 0 ∧
        (remote_mcp_example b).1.countP isAgentRun = 0) := by
  intro h
  have h2 := (h ⟨none, Except.error Err.auth, none, none,
    Except.ok ""⟩ Err.auth rfl).1
  revert h2
  decide

/-- C1 amended: if the tool connection opened and credential acquisition
then fails with `e`, `remote_mcp_example` aborts before the agent is
constructed and never issues the query; the already-opened tool connection
is closed during unwinding and the error propagates. The whole trace is
construct tool, open tool, close tool. -/
theorem c1_amended_abort_before_agent (b : Behavior) (e : Err)
    (hTool : b.toolOpenResult = none)
    (hCred : b.credentialResult = Except.error e) :
    (remote_mcp_example b).1 =
      [Event.toolConstruct mcpToolName mcpToolUrl, Event.toolOpen,
        Event.toolClose] ∧
    (remote_mcp_example b).2 = some e := by
  rcases b with ⟨tOp, cr, ac, ae, rr⟩
  cases tOp with
  | some e2 => cases hTool
  | none =>
    cases cr with
    | error e2 =>
      cases hCred
      exact ⟨rfl, rfl⟩
    | ok c => cases hCred

/-- Witness for C1 amended at a concrete behavior. -/
theorem c1_amended_witness :
    (remote_mcp_example ⟨none, Except.error Err.auth, none, none,
        Except.ok ""⟩).1 =
      [Event.toolConstruct mcpToolName mcpToolUrl, Event.toolOpen,
        Event.toolClose] ∧
    (remote_mcp_example ⟨none, Except.error Err.auth, none, none,
        Except.ok ""⟩).2 = some Err.auth :=
  c1_amended_abort_before_agent
    ⟨none, Except.error Err.auth, none, none, Except.ok ""⟩ Err.auth rfl rfl

/-- C2: in every run in which both the tool connection and the agent were
successfully acquired (their open events are in the trace), both are
released on every exit path, including the path where the query raises. -/
theorem c2_both_closed (b : Behavior)
    (hTool : Event.toolOpen ∈ (remote_mcp_example b).1)
    (hAgent : Event.agentOpen ∈ (remote_mcp_example b).1) :
    Event.agentClose ∈ (remote_mcp_example b).1 ∧
    Event.toolClose ∈ (remote_mcp_example b).1 := by
  rcases b with ⟨tOp, cr, ac, ae, rr⟩
  cases tOp <;> cases cr <;> cases ac <;> cases ae <;> cases rr <;>
    simp_all [remote_mcp_example]

/-- Witness for C2 at a concrete behavior whose query raises. -/
theorem c2_witness :
    Event.agentClose ∈ (remote_mcp_example ⟨none, Except.ok "tok", none,
        none, Except.error Err.backend⟩).1 ∧
    Event.toolClose ∈ (remote_mcp_example ⟨none, Except.ok "tok", none,
        none, Except.error Err.backend⟩).1 :=
  c2_both_closed ⟨none, Except.ok "tok", none, none,
    Except.error Err.backend⟩ (by decide) (by decide)

/-- C3: on the success path the resources are released in reverse
acquisition order: each close event occurs exactly once and the agent
close strictly precedes the tool-connection close. -/
theorem c3_reverse_release_order (b : Behavior)
    (hOk : (remote_mcp_example b).2 = none) :
    (remote_mcp_example b).1.countP isAgentClose = 1 ∧
    (remote_mcp_example b).1.countP isToolClose = 1 ∧
    ∃ i j : Nat, i < j ∧
      (remote_mcp_example b).1[i]? = some Event.agentClose ∧
      (remote_mcp_example b).1[j]? = some Event.toolClose := by
  rcases b with ⟨tOp, cr, ac, ae, rr⟩
  cases tOp <;> cases cr <;> cases ac <;> cases ae <;> cases rr <;>
    simp_all [remote_mcp_example] <;>
    exact ⟨rfl, rfl, 8, 9, by omega, rfl, rfl⟩

/-- Witness for C3 at a concrete successful behavior. -/
theorem c3_witness :
    (remote_mcp_example ⟨none, Except.ok "tok", none, none,
        Except.ok "answer"⟩).1.countP isAgentClose = 1 ∧
    (remote_mcp_example ⟨none, Except.ok "tok", none, none,
        Except.ok "answer"⟩).1.countP isToolClose = 1 ∧
    ∃ i j : Nat, i < j ∧
      (remote_mcp_example ⟨none, Except.ok "tok", none, none,
        Except.ok "answer"⟩).1[i]? = some Event.agentClose ∧
      (remote_mcp_example ⟨none, Except.ok "tok", none, none,
        Except.ok "answer"⟩).1[j]? = some Event.toolClose :=
  c3_reverse_release_order ⟨none, Except.ok "tok", none, none,
    Except.ok "answer"⟩ rfl

/-- C4: if opening the tool connection fails with `e`, the run aborts with
`e`, the agent is never constructed and no query occurs. -/
theorem c4_tool_open_failure_aborts (b : Behavior) (e : Err)
    (hTool : b.toolOpenResult = some e) :
    (remote_mcp_example b).1.countP isAgentConstruct = 0 ∧
    (remote_mcp_example b).1.countP isAgentRun = 0 ∧
    (remote_mcp_example b).2 = some e := by
  rcases b with ⟨tOp, cr, ac, ae, rr⟩
  cases tOp with
  | some e2 =>
    cases hTool
    exact ⟨rfl, rfl, rfl⟩
  | none => cases hTool

/-- Witness for C4 at a concrete behavior whose tool open fails. -/
theorem c4_witness :
    (remote_mcp_example ⟨some Err.conn, Except.ok "tok", none, none,
        Except.ok "answer"⟩).1.countP isAgentConstruct = 0 ∧
    (remote_mcp_example ⟨some Err.conn, Except.ok "tok", none, none,
        Except.ok "answer"⟩).1.countP isAgentRun = 0 ∧
    (remote_mcp_example ⟨some Err.conn, Except.ok "tok", none, none,
        Except.ok "answer"⟩).2 = some Err.conn :=
  c4_tool_open_failure_aborts ⟨some Err.conn, Except.ok "tok", none, none,
    Except.ok "answer"⟩ Err.conn rfl

/-- C5: on a run reaching the query whose result is the string `s`, exactly
one query event occurs, it passes the tool connection as the agent's
capability set, exactly `s` is printed and nothing else, and the run
returns normally. -/
theorem c5_single_query_print_return (b : Behavior) (c s : String)
    (hTool : b.toolOpenResult = none)
    (hCred : b.credentialResult = Except.ok c)
    (hCtor : b.agentCtorResult = none)
    (hEnter : b.agentEnterResult = none)
    (hRun : b.runResult = Except.ok s) :
    (remote_mcp_example b).1.countP isAgentRun = 1 ∧
    Event.agentRun queryText mcp_server ∈ (remote_mcp_example b).1 ∧
    (remote_mcp_example b).1.filter isPrintOut = [Event.printOut s] ∧
    (remote_mcp_example b).2 = none := by
  rcases b with ⟨tOp, cr, ac, ae, rr⟩
  subst hTool hCred hCtor hEnter hRun
  refine ⟨rfl, ?_, rfl, rfl⟩
  simp [remote_mcp_example]

/-- Witness for C5 at a concrete behavior returning the spec's example
string. -/
theorem c5_witness :
    (remote_mcp_example ⟨none, Except.ok "tok", none, none,
        Except.ok "Azure Container Apps is a serverless container service."⟩).1.countP
        isAgentRun = 1 ∧
    Event.agentRun queryText mcp_server ∈
      (remote_mcp_example ⟨none, Except.ok "tok", none, none,
        Except.ok "Azure Container Apps is a serverless container service."⟩).1 ∧
    (remote_mcp_example ⟨none, Except.ok "tok", none, none,
        Except.ok "Azure Container Apps is a serverless container service."⟩).1.filter
        isPrintOut =
      [Event.printOut "Azure Container Apps is a serverless container service."] ∧
    (remote_mcp_example ⟨none, Except.ok "tok", none, none,
        Except.ok "Azure Container Apps is a serverless container service."⟩).2 =
      none :=
  c5_single_query_print_return ⟨none, Except.ok "tok", none, none,
    Except.ok "Azure Container Apps is a serverless container service."⟩
    "tok" "Azure Container Apps is a serverless container service."
    rfl rfl rfl rfl rfl

/-- C6: no error of any step is caught or recovered inside
`remote_mcp_example`: the outcome is exactly the first failing step's
error, unchanged, and no fallible step is attempted more than once. -/
theorem c6_errors_propagate_unchanged (b : Behavior) :
    (remote_mcp_example b).2 = surfacedError b ∧
    (remote_mcp_example b).1.countP isToolOpen ≤ 1 ∧
    (remote_mcp_example b).1.countP isCredentialAcquire ≤ 1 ∧
    (remote_mcp_example b).1.countP isAgentConstruct ≤ 1 ∧
    (remote_mcp_example b).1.countP isAgentRun ≤ 1 := by
  rcases b with ⟨tOp, cr, ac, ae, rr⟩
  cases tOp <;> cases cr <;> cases ac <;> cases ae <;> cases rr <;>
    exact ⟨rfl, of_decide_eq_true rfl, of_decide_eq_true rfl,
      of_decide_eq_true rfl, of_decide_eq_true rfl⟩

/-- C7: whenever credential acquisition succeeds with credential `c` and
agent construction is reached, the run has constructed the tool connection
with the fixed name and remote URL, the chat client authenticated with
exactly `c`, and the agent with the fixed name and instruction string;
these arguments are the same literals for every behavior. -/
theorem c7_construction_constants (b : Behavior) (c : String)
    (hTool : b.toolOpenResult = none)
    (hCred : b.credentialResult = Except.ok c)
    (hCtor : b.agentCtorResult = none) :
    Event.toolConstruct mcpToolName mcpToolUrl ∈ (remote_mcp_example b).1 ∧
    Event.credentialAcquire c ∈ (remote_mcp_example b).1 ∧
    Event.chatClientConstruct c ∈ (remote_mcp_example b).1 ∧
    Event.agentConstruct agentName agentInstructions ∈
      (remote_mcp_example b).1 := by
  rcases b with ⟨tOp, cr, ac, ae, rr⟩
  subst hTool hCred hCtor
  cases ae <;> cases rr <;> simp [remote_mcp_example]

/-- Witness for C7 at a concrete behavior. -/
theorem c7_witness :
    Event.toolConstruct mcpToolName mcpToolUrl ∈
      (remote_mcp_example ⟨none, Except.ok "tok", none, none,
        Except.ok "answer"⟩).1 ∧
    Event.credentialAcquire "tok" ∈
      (remote_mcp_example ⟨none, Except.ok "tok", none, none,
        Except.ok "answer"⟩).1 ∧
    Event.chatClientConstruct "tok" ∈
      (remote_mcp_example ⟨none, Except.ok "tok", none, none,
        Except.ok "answer"⟩).1 ∧
    Event.agentConstruct agentName agentInstructions ∈
      (remote_mcp_example ⟨none, Except.ok "tok", none, none,
        Except.ok "answer"⟩).1 :=
  c7_construction_constants ⟨none, Except.ok "tok", none, none,
    Except.ok "answer"⟩ "tok" rfl rfl rfl

/-- Configuration loading never happens inside a call of
`remote_mcp_example` itself. -/
theorem countP_loadDotenv_run (b : Behavior) :
    (remote_mcp_example b).1.countP isLoadDotenv = 0 := by
  rcases b with ⟨tOp, cr, ac, ae, rr⟩
  cases tOp <;> cases cr <;> cases ac <;> cases ae <;> cases rr <;> rfl

/-- C8: in a process that imports the module and then calls
`remote_mcp_example` any number of times, the configuration is loaded
exactly once, and that load is the very first event, so it precedes
every tool open and credential acquisition of every run. -/
theorem c8_load_dotenv_once_first (bs : List Behavior) :
    (processTrace bs).countP isLoadDotenv = 1 ∧
    (processTrace bs).head? = some Event.loadDotenv := by
  refine ⟨?_, rfl⟩
  unfold processTrace
  rw [List.countP_cons]
  have h0 : ∀ ls : List Behavior,
      ((ls.map (fun b => (remote_mcp_example b).1)).flatten).countP
        isLoadDotenv = 0 := by
    intro ls
    induction ls with
    | nil => rfl
    | cons hd tl ih =>
      simp [List.countP_append, ih, countP_loadDotenv_run hd]
  simp [h0 bs, isLoadDotenv]

/-- C9: every query event in any run carries exactly the fixed literal
query string and exactly the opened tool connection as its tools argument,
for every behavior of the collaborators. -/
theorem c9_query_literal (b : Behavior) (q : String) (t : ToolRef)
    (h : Event.agentRun q t ∈ (remote_mcp_example b).1) :
    q = queryText ∧ t = mcp_server := by
  rcases b with ⟨tOp, cr, ac, ae, rr⟩
  cases tOp <;> cases cr <;> cases ac <;> cases ae <;> cases rr <;>
    simp_all [remote_mcp_example]

/-- Witness for C9 at a concrete behavior whose trace contains a query
event. -/
theorem c9_witness : queryText = queryText ∧ mcp_server = mcp_server :=
  c9_query_literal ⟨none, Except.ok "tok", none, none, Except.ok "answer"⟩
    queryText mcp_server (by decide)

/-- C10: `remote_mcp_example` is deterministic in its collaborators: two
behaviors that agree on every collaborator result produce the same trace
(hence the same printed output) and the same outcome. -/
theorem c10_deterministic (b1 b2 : Behavior)
    (h1 : b1.toolOpenResult = b2.toolOpenResult)
    (h2 : b1.credentialResult = b2.credentialResult)
    (h3 : b1.agentCtorResult = b2.agentCtorResult)
    (h4 : b1.agentEnterResult = b2.agentEnterResult)
    (h5 : b1.runResult = b2.runResult) :
    remote_mcp_example b1 = remote_mcp_example b2 := by
  have hb : b1 = b2 := by
    cases b1
    cases b2
    simp_all
  rw [hb]

/-- Witness for C10 at a concrete pair of equal behaviors. -/
theorem c10_witness :
    remote_mcp_example ⟨none, Except.ok "tok", none, none,
        Except.ok "answer"⟩ =
      remote_mcp_example ⟨none, Except.ok "tok", none, none,
        Except.ok "answer"⟩ :=
  c10_deterministic ⟨none, Except.ok "tok", none, none, Except.ok "answer"⟩
    ⟨none, Except.ok "tok", none, none, Except.ok "answer"⟩
    rfl rfl rfl rfl rfl

end RemoteMcp
